import Mathlib

/-!
Shallow embedding of the `types-jcmp` repository: ambient TypeScript
declaration files for the JCMP scripting API.

The repository consists of declaration (`.d.ts`) files only.  Each file is a
list of ambient declarations (interfaces, classes, `declare const` values).
We embed the declaration language as an AST and transcribe every revision of
every file:

* `sharedDecls`     — src/lib/jcmp.shared.d.ts (single revision)
* `serverRev1Decls` — src/lib/jcmp.server.d.ts, first revision (lines 1-681)
* `serverRev2Decls` — src/lib/jcmp.server.d.ts, second revision (lines 682-1528)
* `clientRev1Decls` — src/lib/jcmp.client.d.ts (single revision)
* `clientRev2Decls` — src/unnamed/part_000 (a second client revision)

TypeScript function types such as `(a: A, b: B) => R` are embedded in curried
form `.fn A (.fn B R)`; a zero-parameter function type `() => R` is `.fn0 R`;
a function type whose only parameter is a rest parameter `(...any) => any` is
`.fnRest .any .any`.  Parameter names inside function *types* carry no typing
information and are dropped; parameters of methods keep their names,
optionality and rest markers.
-/

/-- Embedded TypeScript type expressions, as they appear in the repository. -/
inductive TSType where
  | named (n : String)
  | lit (s : String)
  | num
  | str
  | boolean
  | any
  | void
  | undef
  | array (t : TSType)
  | union (a b : TSType)
  | fn (dom cod : TSType)
  | fn0 (cod : TSType)
  | fnRest (dom cod : TSType)
deriving DecidableEq, Repr

/-- A declared parameter of a method or constructor. -/
structure TSParam where
  pname : String
  ptype : TSType
  optional : Bool
  rest : Bool
deriving DecidableEq, Repr

/-- A declared method signature. -/
structure TSMethod where
  mname : String
  mparams : List TSParam
  mret : TSType
deriving DecidableEq, Repr

/-- Statements: the declaration grammar would allow function bodies; the
repository, being ambient declarations, never uses them. -/
inductive TSStmt where
  | exprCall (callee : String) (argCount : Nat)
  | assign (lhs rhs : String)
  | ret
deriving DecidableEq, Repr

/-- A member of an interface or class. -/
inductive TSMember where
  | field (fname : String) (ftype : TSType) (readonly : Bool)
  | method (sig : TSMethod)
  | methodImpl (sig : TSMethod) (body : List TSStmt)
  | ctor (params : List TSParam)
  | indexStr (vtype : TSType)
  | indexNum (vtype : TSType)
deriving DecidableEq, Repr

/-- A top-level declaration of a `.d.ts` file. -/
inductive TSDecl where
  | intf (dname : String) (members : List TSMember)
  | cls (dname : String) (members : List TSMember)
  | constD (dname : String) (dtype : TSType)
deriving DecidableEq, Repr

def TSDecl.name : TSDecl → String
  | .intf n _ => n
  | .cls n _ => n
  | .constD n _ => n

def TSDecl.members : TSDecl → List TSMember
  | .intf _ ms => ms
  | .cls _ ms => ms
  | .constD _ _ => []

/- Shorthands used only to keep the transcription compact. -/

/-- Mutable field of type `number`. -/
def nfld (s : String) : TSMember := .field s .num false

/-- Readonly field of type `number`. -/
def rnfld (s : String) : TSMember := .field s .num true

/-- Mutable field of a given type. -/
def fld (s : String) (t : TSType) : TSMember := .field s t false

/-- Readonly field of a given type. -/
def rfld (s : String) (t : TSType) : TSMember := .field s t true

/-- Required parameter. -/
def pq (n : String) (t : TSType) : TSParam := ⟨n, t, false, false⟩

/-- Optional parameter (declared with `?`). -/
def popt (n : String) (t : TSType) : TSParam := ⟨n, t, true, false⟩

/-- Rest parameter (declared with `...`). -/
def prest (n : String) (t : TSType) : TSParam := ⟨n, t, false, true⟩

/-- Method member. -/
def mth (n : String) (ps : List TSParam) (r : TSType) : TSMember := .method ⟨n, ps, r⟩

/-- The handler type `(...any) => any` that recurs throughout the files. -/
def anyHandler : TSType := .fnRest .any .any

/-! ## src/lib/jcmp.shared.d.ts -/

def sharedDecls : List TSDecl := [
  .intf "EventSystem" [
    mth "Add" [pq "name" .str, pq "handler" anyHandler] (.named "EventInstance"),
    mth "Call" [pq "name" .str, prest "args" (.array .any)] (.array .any),
    mth "Remove" [pq "p1" (.named "EventInstance")] .void,
    mth "RemoveAll" [pq "p1" .str] .void,
    mth "Add" [pq "name" (.lit "PackageLoaded"),
      pq "handler" (.fn (.named "Package") .any)] .void,
    mth "Add" [pq "name" (.lit "ScriptError"),
      pq "handler" (.fn .str (.fn .num (.fn .any (.fn .any .any))))] .void],
  .cls "Vector3f" [
    .ctor [popt "x" .num, popt "y" .num, popt "z" .num],
    nfld "x", nfld "y", nfld "z", rnfld "length",
    mth "mul" [pq "vec" (.named "Vector3f")] (.named "Vector3f"),
    mth "div" [pq "vec" (.named "Vector3f")] (.named "Vector3f"),
    mth "sub" [pq "vec" (.named "Vector3f")] (.named "Vector3f"),
    mth "add" [pq "vec" (.named "Vector3f")] (.named "Vector3f")],
  .cls "RGB" [
    .ctor [popt "r" .num, popt "g" .num, popt "b" .num],
    nfld "r", nfld "g", nfld "b"],
  .intf "EventInstance" [
    fld "oneShot" .boolean],
  .intf "JCMPNamespace" [
    .indexStr .any, .indexNum .any,
    rfld "packages" (.array (.named "Package")),
    rfld "events" (.named "EventSystem"),
    rnfld "networkVersion",
    rfld "version" .str,
    rfld "players" .any,
    rfld "vehicles" .any],
  .intf "Package" [
    rfld "name" .str,
    rfld "dir" .str,
    rfld "valid" .boolean,
    rfld "config" .str,
    mth "Start" [] .boolean,
    mth "Stop" [] .void],
  .cls "Vector2" [
    .ctor [popt "x" .num, popt "y" .num],
    nfld "x", nfld "y", rnfld "length"],
  .cls "RGBA" [
    .ctor [popt "r" .num, popt "g" .num, popt "b" .num, popt "a" .num],
    rnfld "r", rnfld "g", rnfld "b", rnfld "a"],
  .cls "Vector4" [
    .ctor [popt "x" .num, popt "y" .num, popt "z" .num, popt "w" .num],
    nfld "x", nfld "y", nfld "z", nfld "w", rnfld "length"],
  .cls "Vector2f" [
    .ctor [popt "x" .num, popt "y" .num],
    nfld "x", nfld "y", rnfld "length",
    mth "mul" [pq "vec" (.named "Vector2f")] (.named "Vector2f"),
    mth "div" [pq "vec" (.named "Vector2f")] (.named "Vector2f"),
    mth "sub" [pq "vec" (.named "Vector2f")] (.named "Vector2f"),
    mth "add" [pq "vec" (.named "Vector2f")] (.named "Vector2f")],
  .cls "Vector3" [
    .ctor [popt "x" .num, popt "y" .num, popt "z" .num],
    nfld "x", nfld "y", nfld "z", rnfld "length"],
  .cls "Matrix" [
    .ctor [],
    rfld "position" (.named "Vector3f"),
    mth "Transpose" [] (.named "Matrix"),
    mth "Scale" [pq "scale" (.named "Vector3f")] (.named "Matrix"),
    mth "Rotate" [pq "factor" .num, pq "rotation" (.named "Vector3f")] (.named "Matrix"),
    mth "Translate" [pq "translation" (.named "Vector3f")] (.named "Matrix"),
    mth "LookAt" [pq "p1" (.named "Vector3f"), pq "p2" (.named "Vector3f"),
      pq "p3" (.named "Vector3f")] (.named "Matrix"),
    mth "mul" [pq "p1" (.named "Matrix")] (.named "Matrix"),
    mth "div" [pq "p1" (.named "Matrix")] (.named "Matrix"),
    mth "sub" [pq "p1" (.named "Matrix")] (.named "Matrix"),
    mth "add" [pq "p1" (.named "Matrix")] (.named "Matrix")],
  .cls "Vector4f" [
    .ctor [popt "x" .num, popt "y" .num, popt "z" .num, popt "w" .num],
    nfld "x", nfld "y", nfld "z", nfld "w", rnfld "length",
    mth "mul" [pq "vec" (.named "Vector4f")] (.named "Vector4f"),
    mth "div" [pq "vec" (.named "Vector4f")] (.named "Vector4f"),
    mth "sub" [pq "vec" (.named "Vector4f")] (.named "Vector4f"),
    mth "add" [pq "vec" (.named "Vector4f")] (.named "Vector4f")],
  .constD "jcmp" (.named "JCMPNamespace")]

/-! ## src/lib/jcmp.server.d.ts, first revision (lines 1-681) -/

def serverRev1Decls : List TSDecl := [
  .intf "JCMPNamespace" [
    rfld "server" (.named "Server"),
    rfld "players" .any,
    rfld "vehicles" .any,
    rfld "objects" .any,
    rfld "poi" .any,
    rfld "checkpoints" .any],
  .intf "EventSystem" [
    mth "AddRemoteCallable" [pq "name" .str, pq "handler" anyHandler] .void,
    mth "CallRemote" [pq "name" .str, pq "target" (.named "Player"),
      prest "args" (.array .any)] .void,
    mth "Add" [pq "name" (.lit "CheckpointEnter"),
      pq "handler" (.fn (.named "Checkpoint") (.fn (.named "Player") .any))] .void,
    mth "Add" [pq "name" (.lit "CheckpointLeave"),
      pq "handler" (.fn (.named "Checkpoint") (.fn (.named "Player") .any))] .void,
    mth "Add" [pq "name" (.lit "PlayerReady"),
      pq "handler" (.fn (.named "Player") .any)] .void,
    mth "Add" [pq "name" (.lit "PlayerDeath"),
      pq "handler" (.fn (.named "Player") (.fn .any (.fn (.named "Number") .any)))] .void,
    mth "Add" [pq "name" (.lit "PlayerRespawn"),
      pq "handler" (.fn (.named "Player") .any)] .void,
    mth "Add" [pq "name" (.lit "PlayerVehicleEntered"),
      pq "handler" (.fn (.named "Player") (.fn (.named "Vehicle") (.fn .any .any)))] .void,
    mth "Add" [pq "name" (.lit "PlayerVehicleSeatChange"),
      pq "handler" (.fn (.named "Player")
        (.fn (.named "Vehicle") (.fn .any (.fn .any .any))))] .void,
    mth "Add" [pq "name" (.lit "PlayerVehicleExited"),
      pq "handler" (.fn (.named "Player") (.fn (.named "Vehicle") (.fn .any .any)))] .void,
    mth "Add" [pq "name" (.lit "VehicleCreated"),
      pq "handler" (.fn (.named "Vehicle") .any)] .void,
    mth "Add" [pq "name" (.lit "PlayerHijackVehicle"),
      pq "handler" (.fn .any (.fn (.named "Vehicle") (.fn (.named "Player") .any)))] .void,
    mth "Add" [pq "name" (.lit "VehicleDestroyed"),
      pq "handler" (.fn (.named "Vehicle") .any)] .void,
    mth "Add" [pq "name" (.lit "PlayerCreated"),
      pq "handler" (.fn (.named "Player") .any)] .void,
    mth "Add" [pq "name" (.lit "PlayerDestroyed"),
      pq "handler" (.fn (.named "Player") .any)] .void,
    mth "Add" [pq "name" (.lit "ClientConnectRequest"),
      pq "handler" (.fn .str (.fn .str .any))] .void,
    mth "Add" [pq "name" (.lit "ClientConnected"),
      pq "handler" (.fn (.named "RemoteClient") .any)] .void,
    mth "Add" [pq "name" (.lit "ClientDisconnected"),
      pq "handler" (.fn (.named "RemoteClient") (.fn (.named "Number") .any))] .void,
    mth "Add" [pq "name" (.lit "PackageDetected"),
      pq "handler" (.fn (.named "Package") .any)] .void],
  .cls "Checkpoint" [
    .ctor [pq "type" .num, pq "modelHash" .num, pq "position" (.named "Vector3f"),
      popt "rotation" (.named "Vector3f")],
    .indexStr .any, .indexNum .any,
    nfld "modelHash",
    rnfld "networkId",
    fld "position" (.named "Vector3"),
    fld "rotation" (.named "Vector3"),
    nfld "radius",
    fld "visible" .boolean,
    nfld "dimension",
    mth "SetVisibleForPlayer" [pq "player" (.named "Player"), pq "visible" .boolean] .void,
    mth "IsVisibleForPlayer" [pq "player" (.named "Player")] .boolean,
    mth "Destroy" [] .void],
  .cls "Argument" [
    .ctor [popt "key" .str, popt "value" .str],
    fld "key" .str,
    fld "value" .str],
  .intf "Server" [
    rfld "args" .any,
    rfld "config" .str,
    rnfld "currentTickRate",
    rfld "clients" .any,
    mth "Stop" [] .void,
    mth "Restart" [] .void,
    mth "AddInputHandler" [pq "handler" anyHandler] .void,
    mth "UpdateClientPackage" [pq "p1" .str] .void],
  .cls "GameObject" [
    .ctor [pq "model" .str, pq "position" (.named "Vector3f"),
      popt "rotation" (.named "Vector3f")],
    .indexStr .any, .indexNum .any,
    rfld "model" .str,
    rnfld "networkId",
    fld "position" (.named "Vector3"),
    fld "rotation" (.named "Vector3"),
    nfld "dimension",
    mth "ApplyForce" [pq "direction" (.named "Vector3"), pq "deltaTime" .num] .void,
    mth "Destroy" [] .void],
  .intf "RemoteClient" [
    .indexStr .any, .indexNum .any,
    rfld "name" .str,
    rfld "ipAddress" .str,
    rnfld "networkId",
    rnfld "ping",
    rfld "steamId" .str,
    rfld "steamAuthenticated" .boolean,
    mth "Kick" [pq "reason" .str] .void,
    mth "DoesOwnDLC" [pq "dlc" .num] .boolean],
  .intf "Player" [
    .indexStr .any, .indexNum .any,
    rfld "client" (.named "RemoteClient"),
    rfld "name" .str,
    rnfld "networkId",
    nfld "health",
    fld "invulnerable" .boolean,
    fld "position" (.named "Vector3"),
    fld "respawnPosition" (.named "Vector3f"),
    fld "rotation" (.named "Vector3"),
    fld "aimPosition" (.named "Vector3f"),
    rfld "weapons" .any,
    rfld "selectedWeapon" (.named "PlayerWeapon"),
    nfld "model",
    nfld "dimension",
    rfld "vehicle" (.named "Vehicle"),
    mth "Kick" [pq "reason" .str] .void,
    mth "Respawn" [] .void,
    mth "GiveWeapon" [pq "weaponHash" .num, pq "ammo" .num, pq "equipNow" .boolean]
      (.named "PlayerWeapon")],
  .intf "PlayerWeapon" [
    rnfld "modelHash",
    rnfld "slotIndex",
    nfld "magazineAmmo",
    nfld "reserveAmmo"],
  .cls "Vehicle" [
    .ctor [pq "modelHash" .str, pq "position" (.named "Vector3f"),
      popt "rotation" (.named "Vector3f")],
    .indexStr .any, .indexNum .any,
    fld "driver" (.named "Player"),
    nfld "modelHash",
    nfld "health",
    rfld "destroyed" .boolean,
    rnfld "networkId",
    fld "position" (.named "Vector3"),
    fld "aimPosition" (.named "Vector3"),
    fld "rotation" (.named "Vector3"),
    fld "linearVelocity" (.named "Vector3f"),
    fld "angularVelocity" (.named "Vector3f"),
    nfld "primaryColor",
    nfld "dimension",
    fld "nitroEnabled" .boolean,
    fld "turboJumpEnabled" .boolean,
    mth "SetOccupant" [pq "seat" .num, pq "player" (.named "Player")] .void,
    mth "GetOccupant" [pq "seat" .num] (.named "Player"),
    mth "Repair" [] .void,
    mth "Respawn" [] .void,
    mth "Destroy" [] .void],
  .cls "POI" [
    .ctor [pq "type" .num, pq "position" (.named "Vector3f"), popt "text" .str],
    .indexStr .any, .indexNum .any,
    nfld "type",
    nfld "progress",
    nfld "progressMax",
    rnfld "networkId",
    fld "position" (.named "Vector3"),
    nfld "minDistance",
    nfld "maxDistance",
    fld "text" .str,
    fld "visible" .boolean,
    fld "flashing" .boolean,
    fld "clampedToScreen" .boolean,
    mth "SetVisibleForPlayer" [pq "player" (.named "Player"), pq "visible" .boolean] .void,
    mth "IsVisibleForPlayer" [pq "player" (.named "Player")] .boolean,
    mth "Destroy" [] .void]]

/-! ## src/lib/jcmp.server.d.ts, second revision (lines 682-1528) -/

def serverRev2Decls : List TSDecl := [
  .intf "CarHandlingEngineTransmission" [
    nfld "gears", nfld "nitrousGears", nfld "sequential", nfld "manualClutch",
    nfld "manualClutchBlendRpm", nfld "manualClutchBlendTime",
    nfld "forwardRatioPercentage", nfld "lowGearForwardRatioPct", nfld "topSpeed",
    nfld "lowGearsFinalDrive", nfld "finalDrive", nfld "reverseUsesForwardGears",
    nfld "reverseGearRatio", nfld "clutchDelay", nfld "decayTimeToCruiseRpm",
    nfld "targetCruiseRpm"],
  .intf "JCMPNamespace" [
    rfld "server" (.named "Server")],
  .intf "EventSystem" [
    mth "AddRemoteCallable" [pq "name" .str, pq "handler" anyHandler] .void,
    mth "CallRemote" [pq "name" .str, pq "target" (.union (.named "Player") .undef),
      prest "args" (.array .any)] .void,
    mth "Add" [pq "name" (.lit "PlayerReady"),
      pq "handler" (.fn (.named "Player") .any)] .void,
    mth "Add" [pq "name" (.lit "PlayerRespawn"),
      pq "handler" (.fn (.named "Player") .any)] .void,
    mth "Add" [pq "name" (.lit "PlayerDeath"),
      pq "handler" (.fn (.named "Player") (.fn .any (.fn .num .any)))] .void,
    mth "Add" [pq "name" (.lit "PlayerVehicleEntered"),
      pq "handler" (.fn .any (.fn (.named "Vehicle") (.fn .num .any)))] .void,
    mth "Add" [pq "name" (.lit "PlayerVehicleSeatChange"),
      pq "handler" (.fn .any (.fn (.named "Vehicle") (.fn .num (.fn .num .any))))] .void,
    mth "Add" [pq "name" (.lit "PlayerVehicleExited"),
      pq "handler" (.fn .any (.fn (.named "Vehicle") (.fn .num .any)))] .void,
    mth "Add" [pq "name" (.lit "PlayerHijackVehicle"),
      pq "handler" (.fn (.named "Player")
        (.fn (.named "Vehicle") (.fn (.named "Player") .any)))] .void,
    mth "Add" [pq "name" (.lit "VehicleDestroyed"),
      pq "handler" (.fn (.named "Vehicle") .any)] .void,
    mth "Add" [pq "name" (.lit "VehicleCreated"),
      pq "handler" (.fn (.named "Vehicle") .any)] .void,
    mth "Add" [pq "name" (.lit "VehicleExploded"),
      pq "handler" (.fn (.named "Vehicle") .any)] .void,
    mth "Add" [pq "name" (.lit "PlayerCreated"),
      pq "handler" (.fn (.named "Player") .any)] .void,
    mth "Add" [pq "name" (.lit "PlayerDestroyed"),
      pq "handler" (.fn (.named "Player") .any)] .void,
    mth "Add" [pq "name" (.lit "ClientConnectRequest"),
      pq "handler" (.fn .str (.fn .str .any))] .void,
    mth "Add" [pq "name" (.lit "ClientConnected"),
      pq "handler" (.fn (.named "RemoteClient") .any)] .void,
    mth "Add" [pq "name" (.lit "ClientDisconnected"),
      pq "handler" (.fn (.named "RemoteClient") (.fn .num .any))] .void],
  .intf "BoatHandlingSteeringSteeringFilter" [
    nfld "tToFullInputMinSpeedS", nfld "tToFullInputMaxSpeedS",
    nfld "inputStartSpeedKmph", nfld "inputMaxSpeedKmph",
    nfld "counterinputSpeedFactor", nfld "zeroinputSpeedFactor",
    nfld "inputSpeedcurveFalloff"],
  .intf "BoatHandlingPropellers" [
    nfld "maxThrust", nfld "maxRpm", nfld "maxReverseRpm", nfld "diameter",
    nfld "pitch",
    fld "dockingControls" (.named "BoatHandlingPropellersDockingControls")],
  .intf "CarHandlingLandGlobal" [
    nfld "linearDampingX", nfld "linearDampingY", nfld "linearDampingZ",
    nfld "gravityMultiplierGrounded", nfld "gravityMultiplierInAirUp",
    nfld "gravityMultiplierInAirDown", nfld "takeoffPitchDamping",
    fld "frontWheelsDamage" (.named "CarHandlingLandGlobalWheelDamage"),
    fld "rearWheelsDamage" (.named "CarHandlingLandGlobalWheelDamage"),
    fld "drift" (.named "CarHandlingLandGlobalDrift"),
    fld "arcade" (.named "CarHandlingLandGlobalArcade")],
  .cls "Argument" [
    .ctor [popt "key" .str, popt "value" .str],
    fld "key" .str,
    fld "value" .str],
  .intf "VehicleHandling" [
    rfld "car" (.named "CarHandling"),
    rfld "boat" (.named "BoatHandling"),
    rfld "helicopter" (.named "HelicopterHandling"),
    rfld "plane" (.named "PlaneHandling"),
    rfld "bike" (.named "BikeHandling"),
    mth "Apply" [] .void],
  .intf "Server" [
    rfld "args" (.array (.named "Argument")),
    rfld "config" .str,
    rnfld "currentTickRate",
    rfld "clients" (.array (.named "RemoteClient")),
    mth "Stop" [] .void,
    mth "Restart" [] .void,
    mth "AddInputHandler" [pq "handler" anyHandler] .void,
    mth "UpdateClientPackage" [pq "p1" .str] .void],
  .cls "GameObject" [
    .ctor [pq "model" .str, pq "position" (.named "Vector3f"),
      popt "rotation" (.named "Vector3f")],
    .indexStr .any, .indexNum .any,
    fld "position" (.named "Vector3f"),
    fld "rotation" (.named "Vector3f"),
    rnfld "networkId",
    rfld "modelHash" .str,
    nfld "dimension",
    mth "ApplyForce" [pq "direction" (.named "Vector3f"), pq "deltaTime" .num] .void,
    mth "Destroy" [] .void],
  .intf "PlaneHandling" [
    fld "airSteering" (.named "PlaneHandlingAirSteering"),
    fld "engine" (.named "PlaneHandlingEngine")],
  .intf "BoatHandlingFins" [
    nfld "referenceSpeedMs", nfld "pressureDrag", nfld "pressureDrag2"],
  .intf "RemoteClient" [
    .indexStr .any, .indexNum .any,
    rfld "name" .str,
    rfld "ipAddress" .str,
    rnfld "networkId",
    rnfld "ping",
    rfld "steamId" .str,
    rfld "steamAuthenticated" .boolean,
    mth "Kick" [pq "reason" .str] .void,
    mth "DoesOwnDLC" [pq "dlc" .num] .boolean],
  .intf "Player" [
    .indexStr .any, .indexNum .any,
    rfld "vehicle" .any,
    rfld "client" (.named "RemoteClient"),
    rfld "name" .str,
    rnfld "networkId",
    nfld "health",
    fld "invulnerable" .boolean,
    fld "position" (.named "Vector3f"),
    fld "respawnPosition" (.named "Vector3f"),
    fld "rotation" (.named "Vector3f"),
    fld "aimPosition" (.named "Vector3f"),
    rfld "selectedWeapon" (.named "PlayerWeapon"),
    rfld "weapons" (.union (.array (.named "PlayerWeapon")) .undef),
    nfld "dimension",
    mth "Kick" [pq "reason" .str] .void,
    mth "Respawn" [] .void,
    mth "GiveWeapon" [pq "weaponHash" .num, pq "ammo" .num, pq "equipNow" .boolean]
      (.named "PlayerWeapon"),
    mth "RemoveWeapon" [pq "p1" .num] .boolean],
  .intf "PlayerWeapon" [
    rnfld "modelHash",
    rnfld "slotIndex",
    nfld "magazineAmmo",
    nfld "reserveAmmo"],
  .intf "CarHandling" [
    nfld "topSpeedKph", nfld "topSpeed", nfld "dragCoefficient", nfld "pmMass",
    nfld "pmLinearDamping", nfld "pmAngularDamping", nfld "pmGravityFactor",
    fld "landGlobal" (.named "CarHandlingLandGlobal"),
    fld "engine" (.named "CarHandlingEngine"),
    fld "engineTransmission" (.named "CarHandlingEngineTransmission"),
    fld "brakes" (.named "CarHandlingBrakes"),
    fld "steering" (.named "CarHandlingSteering")],
  .intf "CarHandlingLandGlobalWheelDamage" [
    nfld "skewHealth", nfld "brokenWheelFrictionFraction",
    nfld "brokenWheelRadiusFraction"],
  .intf "CarHandlingLandGlobalDrift" [
    nfld "driftEntrySlipAngle", nfld "driftExitSlipAngle", nfld "maxDriftAngleDeg",
    nfld "driftLimitSpreadAngleDeg", nfld "constantDriftTorque", nfld "maxDriftTorque",
    nfld "counterSteerTorque", nfld "counterSteerTorqueHandbrake",
    nfld "counterSteerTorqueBrake", nfld "driftYawVelDamp", nfld "overdriftYawVelDamp",
    nfld "exitDriftYawVelDamp", nfld "velocityRotationStartAngle",
    nfld "velocityRotationEndAngle", nfld "velocityRotationAmount",
    nfld "velocityRotationAngleExp", nfld "counterSteerRotFactor",
    nfld "steeringSensitivity", nfld "minSpeedToDriftKmph", nfld "keepVelocityStrength",
    nfld "maxKeepVelocityAccelerationG"],
  .intf "BikeHandlingSteering" [
    fld "landSteering" (.named "CarHandlingSteering"),
    fld "wheelie" (.named "BikeHandlingSteeringWheelie")],
  .intf "HelicopterHandlingModel" [
    nfld "centerOfTorquesX", nfld "centerOfTorquesY", nfld "centerOfTorquesZ",
    nfld "altitudeInputPower", nfld "yawInputPower", nfld "pitchInputPower",
    nfld "rollInputPower", nfld "pitchInputDeadZone", nfld "tToFullYawS",
    nfld "maxSpeedTToFullYawS", nfld "bankStartVelocityKmph", nfld "bankMaxVelocityKmph",
    nfld "minSpeedDiveKmph", nfld "maxSpeedDiveKmph", nfld "addDivePitchDeg",
    nfld "addClimbPitchDeg", nfld "maxRollInputForClimb", nfld "climbSpeedLowSpeedKmph",
    nfld "diveSpeedLowSpeedKmph", nfld "minAltitudeInput",
    nfld "unsettledAltitudeGainClimb", nfld "unsettledAltitudeGainDive",
    nfld "maxDivingGs", nfld "maxClimbingGs", nfld "addForceForwardPower",
    nfld "addForceLateralPower", nfld "trimInputGain", nfld "forwardDrag",
    nfld "lateralDrag", nfld "verticalDrag", nfld "tailLateralDrag",
    nfld "tailVerticalDrag", nfld "angularDrag", nfld "lowSpeedMaxDragYawSpeed",
    nfld "highSpeedMaxDragYawSpeed", nfld "yawDragNoInput", nfld "forwardDragNoInput",
    nfld "lateralDragNoInput", nfld "verticalDragNoInput", nfld "tailDistanceToComM",
    nfld "addForwardForce", nfld "addRightForce", nfld "addLateralFactorPullUp",
    nfld "maxRollDeg", nfld "addBankRollDeg", nfld "addBankRollPullUpDeg",
    nfld "maxPitchLowSpeedDeg", nfld "maxPitchHighSpeedDeg", nfld "counterPitchAngleDeg",
    nfld "counterPitchSpeedKmph", nfld "rollP", nfld "rollI", nfld "rollD",
    nfld "rollMaxAmplitude", nfld "pitchP", nfld "pitchI", nfld "pitchD",
    nfld "pitchMaxAmplitude", nfld "yawP", nfld "yawI", nfld "yawD",
    nfld "yawMaxAmplitude", nfld "lowSpeedAltitudeP", nfld "lowSpeedAltitudeI",
    nfld "lowSpeedAltitudeD", nfld "highSpeedAltitudeP", nfld "highSpeedAltitudeI",
    nfld "highSpeedAltitudeD", nfld "altitudeLimitThresholdLow",
    nfld "altitudeLimitThresholdHigh"],
  .intf "CarHandlingLandGlobalArcade" [
    fld "heatBoost" (.named "CarHandlingLandGlobalArcadePerformanceBoost"),
    fld "nitroBoost" (.named "CarHandlingLandGlobalArcadePerformanceBoost"),
    fld "nitroBoostUpgraded" (.named "CarHandlingLandGlobalArcadePerformanceBoost"),
    fld "turboJump" (.named "CarHandlingLandGlobalArcadeTurboJump"),
    fld "turboJumpUpgraded" (.named "CarHandlingLandGlobalArcadeTurboJump")],
  .intf "CarHandlingLandGlobalArcadePerformanceBoost" [
    nfld "torqueMultiplier", nfld "gripMultiplier", nfld "pushForce",
    nfld "boostBlendTime", nfld "extraTopSpeed"],
  .intf "CarHandlingEngine" [
    nfld "topSpeedJumpMultiplier", nfld "resistanceAtMinRpm", nfld "resistanceAtMaxRpm",
    nfld "resistanceAtOptimalRpm", nfld "revLimiterRpmDrop", nfld "maxRpm",
    nfld "minRpm", nfld "optimalRpm", nfld "torqueFactorAtMaxRpm",
    nfld "torqueFactorAtMinRpm", nfld "torqueFactorAtOptimalRpm", nfld "clutchSlipRpm",
    nfld "engineMinNoise", nfld "engineDamageNoiseScale", nfld "engineMaxDamageTorque"],
  .intf "CarHandlingLandGlobalArcadeTurboJump" [
    nfld "fMultiplier", nfld "rMultiplier", nfld "punchDelayTime", nfld "punchSpeedKph",
    nfld "topSpeedKph", nfld "topSpeedJumpMultiplier"],
  .intf "InputAxisTiming" [
    nfld "timeToMaxInputAtMinSpeedS", nfld "timeToMaxInputAtMaxSpeedS",
    nfld "centeringInputTimeFactor", nfld "counterInputTimeFactor"],
  .intf "CarHandlingBrakes" [
    fld "front" (.named "CarHandlingBrakesBrakeAxis"),
    fld "rear" (.named "CarHandlingBrakesBrakeAxis"),
    nfld "handbrakeFrictionFactor"],
  .intf "CarHandlingBrakesBrakeAxis" [
    nfld "handbrake", nfld "maxBrakeTorque", nfld "minTimeToBlock"],
  .intf "CarHandlingSteering" [
    nfld "deadZone", nfld "saturationZone", nfld "tToFullSteerS",
    nfld "maxSpeedTToFullSteerS", nfld "minSpeedKmph", nfld "maxSpeedKmph",
    nfld "steerAngleMinSpeedDeg", nfld "steerAngleMaxSpeedDeg", nfld "steerCurveFalloff",
    nfld "countersteerSpeedFactor", nfld "steerInSpeedFactor", nfld "steerInputPowerPc",
    nfld "steerInputPowerDurango", nfld "steerInputPowerOrbis",
    nfld "wheelDriftAligningStrength"],
  .intf "BoatHandling" [
    fld "propellers" (.named "BoatHandlingPropellers"),
    fld "fins" (.named "BoatHandlingFins"),
    fld "steering" (.named "BoatHandlingSteering")],
  .intf "HelicopterHandling" [
    fld "model" (.named "HelicopterHandlingModel"),
    fld "steering" (.named "HelicopterHandlingSteering")],
  .intf "BoatHandlingPropellersDockingControls" [
    nfld "maxThrust", nfld "maxDockingSpeedMs", nfld "maxDockingControlThrottle",
    nfld "dockingYawThrottleLimit"],
  .intf "BoatHandlingSteering" [
    nfld "accelerationSmoothing",
    fld "steeringfilter" (.named "BoatHandlingSteeringSteeringFilter")],
  .intf "PlaneHandlingAirSteering" [
    nfld "maxSteeringAngle", nfld "accelerationSmoothing", nfld "rollReturn",
    nfld "pitchReturn", nfld "referenceMinSpeedKPH", nfld "referenceMaxSpeedKPH",
    fld "rollAxisTiming" (.named "InputAxisTiming"),
    fld "pitchAxisTiming" (.named "InputAxisTiming"),
    fld "yawAxisTiming" (.named "InputAxisTiming")],
  .intf "PlaneHandlingEngine" [
    nfld "minThrust", nfld "maxThrust", nfld "runThrust",
    nfld "maxThrustAcceleration", nfld "taxiingMaxThrust",
    nfld "taxiingInputThreshold", nfld "taxiingTopSpeed"],
  .intf "HelicopterHandlingSteering" [
    nfld "returnPitchLimit", nfld "returnRollLimit",
    fld "airSteering" (.named "PlaneHandlingAirSteering")],
  .intf "BikeHandling" [
    nfld "topSpeedKph", nfld "topSpeed", nfld "dragCoefficient", nfld "pmMass",
    nfld "pmLinearDamping", nfld "pmAngularDamping", nfld "pmGravityFactor",
    fld "landGlobal" (.named "CarHandlingLandGlobal"),
    fld "engine" (.named "CarHandlingEngine"),
    fld "engineTransmission" (.named "CarHandlingEngineTransmission"),
    fld "brakes" (.named "CarHandlingBrakes"),
    fld "steering" (.named "BikeHandlingSteering")],
  .intf "BikeHandlingSteeringWheelie" [
    nfld "maxLeanAngleDeg", nfld "inputReactiveness", nfld "deadZone", nfld "minSpeed",
    nfld "wheelieAngleDeg", nfld "wheelieTorque", nfld "nosieAngleDeg",
    nfld "nosieTorque"],
  .cls "Vehicle" [
    .ctor [pq "modelHash" .num, pq "position" (.named "Vector3f"),
      popt "rotation" (.named "Vector3f")],
    .indexStr .any, .indexNum .any,
    fld "driver" (.named "Player"),
    fld "position" (.named "Vector3f"),
    fld "rotation" (.named "Vector3f"),
    rnfld "networkId",
    rfld "destroyed" .boolean,
    fld "nitroEnabled" .boolean,
    fld "turboJumpEnabled" .boolean,
    nfld "primaryColor",
    fld "linearVelocity" (.named "Vector3f"),
    fld "angularVelocity" (.named "Vector3f"),
    fld "aimPostion" (.named "Vector3f"),
    nfld "health",
    rnfld "modelHash",
    rfld "handling" (.named "VehicleHandling"),
    nfld "dimension",
    mth "Repair" [] .void,
    mth "Respawn" [] .void,
    mth "GetOccupant" [pq "seat" .num] .any,
    mth "SetOccupant" [pq "seat" .num, pq "player" (.named "Player")] .void,
    mth "Destroy" [] .void]]

/-! ## src/lib/jcmp.client.d.ts -/

def clientRev1Decls : List TSDecl := [
  .intf "EventSystem" [
    mth "AddRemoteCallable" [pq "name" .str, pq "handler" anyHandler] .void,
    mth "CallRemote" [pq "name" .str, prest "args" (.array .any)] .void,
    mth "Add" [pq "name" (.lit "GameTeleportInitiated"), pq "handler" (.fn0 .any)] .void,
    mth "Add" [pq "name" (.lit "GameTeleportCompleted"), pq "handler" (.fn0 .any)] .void,
    mth "Add" [pq "name" (.lit "GameUpdateRender"),
      pq "handler" (.fn (.named "Renderer") .any)] .void,
    mth "Add" [pq "name" (.lit "GameRender"),
      pq "handler" (.fn (.named "Renderer") .any)] .void,
    mth "Add" [pq "name" (.lit "Render"),
      pq "handler" (.fn (.named "Renderer") .any)] .void,
    mth "Add" [pq "name" (.lit "WndProc"),
      pq "handler" (.fn .num (.fn .num (.fn .num .any)))] .void,
    mth "Add" [pq "name" (.lit "WebsitesApproved"),
      pq "handler" (.fn (.array .str) .any)] .void,
    mth "Add" [pq "name" (.lit "CEFCommand"),
      pq "handler" (.fn .str (.fn .str .any))] .void],
  .intf "Renderer" [
    rfld "viewportSize" (.named "Vector2f"),
    rnfld "dtf",
    mth "EnableCulling" [pq "p1" .boolean] .void,
    mth "SetTransform" [pq "p1" (.named "Matrix")] .void,
    mth "DrawText" [pq "p1" .str, pq "p2" (.named "Vector3f"), pq "p3" (.named "Vector2f"),
      pq "p4" (.named "RGBA"), pq "p5" .num, pq "p6" .str] .void,
    mth "MeasureText" [pq "p1" .str, pq "p2" .num, pq "p3" .str] (.named "Vector2f"),
    mth "DrawRect" [pq "p1" .any, pq "p2" (.named "Vector2f"), pq "p3" (.named "RGBA")] .void,
    mth "DrawLine" [pq "p1" .any, pq "p2" .any, pq "p3" (.named "RGBA")] .void,
    mth "DrawTexture" [pq "p1" (.named "Texture"), pq "p2" .any] .void],
  .cls "WebUIWindow" [
    .ctor [pq "name" .str, pq "location" .str, pq "size" (.named "Vector2")],
    fld "size" (.named "Vector2"),
    fld "location" .str,
    fld "hidden" .boolean,
    fld "position" (.named "Vector2"),
    fld "autoResize" .boolean,
    fld "captureMouseInput" .boolean,
    rfld "texture" (.named "Texture"),
    fld "autoRenderTexture" .boolean,
    mth "BringToFront" [] .void,
    mth "Reload" [pq "p1" .boolean] .void,
    mth "Destroy" [] .void],
  .intf "Texture" [
    fld "baseColor" (.named "RGBA"),
    fld "size" (.named "Vector2f")],
  .intf "JCMPNamespace" [
    rfld "ui" (.named "JCMPUINamespace"),
    rfld "viewportSize" (.named "Vector2f"),
    rfld "localPlayer" (.named "LocalPlayer"),
    rfld "world" (.named "World"),
    rfld "settings" (.named "Settings"),
    mth "print" [pq "p1" .str] .void,
    mth "printLog" [pq "p1" .str, pq "p2" .str] .void],
  .intf "JCMPUINamespace" [
    .indexStr .any, .indexNum .any,
    mth "AddEvent" [pq "p1" .str, pq "p2" anyHandler] .void,
    mth "CallEvent" [pq "p1" .str, pq "p2" (.array .any)] .void],
  .intf "LocalPlayer" [
    fld "position" (.named "Vector3f"),
    fld "rotation" (.named "Vector3f"),
    rfld "camera" (.named "Camera"),
    fld "frozen" .boolean,
    fld "controlsEnabled" .boolean,
    nfld "baseState",
    mth "SetAbilityEnabled" [pq "ability" .num, pq "enabled" .boolean] .void,
    mth "IsAbilityEnabled" [pq "ability" .num] .boolean,
    mth "CallGameEvent" [pq "event" .str] .void,
    mth "GetRenderPosition" [pq "p1" .num] (.named "Vector3f"),
    mth "GetRenderTransform" [pq "p1" .num] (.named "Matrix"),
    mth "GetBoneTransform" [pq "p1" .num, pq "p2" .num] (.named "Matrix")],
  .intf "NetworkPlayer" [
    rnfld "networkId",
    rfld "name" .str,
    rnfld "health",
    rnfld "maxHealth",
    rfld "localPlayer" .boolean,
    rfld "position" (.named "Vector3f"),
    rfld "rotation" (.named "Vector3f"),
    mth "GetBoneTransform" [pq "p1" .num, pq "p2" .num] (.named "Matrix"),
    mth "GetRenderTransform" [pq "p1" .num] (.named "Matrix")],
  .intf "World" [
    nfld "weather",
    fld "weatherVisible" .boolean,
    fld "moonColor" (.named "RGBA"),
    fld "sunPosition" (.named "Vector2f"),
    nfld "sunHDRScale",
    fld "sunColor" (.named "RGBA"),
    mth "SetTime" [pq "hour" .num, pq "minute" .num] .void,
    mth "ResetSunPosition" [] .void],
  .intf "Camera" [
    fld "position" (.named "Vector3f"),
    fld "rotation" (.named "Vector3f"),
    nfld "fieldOfView",
    fld "attachedToPlayer" .boolean],
  .intf "Settings" [
    mth "Set" [pq "p1" .str, pq "p2" .any] .void,
    mth "Get" [pq "p1" .str] .any,
    mth "Exists" [pq "p1" .str] .boolean,
    mth "Delete" [pq "p1" .str] .boolean,
    mth "Destroy" [] .void]]

/-! ## src/unnamed/part_000 (second client revision) -/

def clientRev2Decls : List TSDecl := [
  .intf "EventSystem" [
    mth "AddRemoteCallable" [pq "name" .str, pq "handler" anyHandler] .void,
    mth "CallRemote" [pq "name" .str, prest "args" (.array .any)] .void,
    mth "Add" [pq "name" (.lit "CheckpointEnter"),
      pq "handler" (.fn (.named "Checkpoint") .any)] .void,
    mth "Add" [pq "name" (.lit "CheckpointLeave"),
      pq "handler" (.fn (.named "Checkpoint") .any)] .void,
    mth "Add" [pq "name" (.lit "GameTeleportInitiated"), pq "handler" (.fn0 .any)] .void,
    mth "Add" [pq "name" (.lit "GameTeleportCompleted"), pq "handler" (.fn0 .any)] .void,
    mth "Add" [pq "name" (.lit "GameUpdateRender"),
      pq "handler" (.fn (.named "Renderer") .any)] .void,
    mth "Add" [pq "name" (.lit "GameRender"),
      pq "handler" (.fn (.named "Renderer") .any)] .void,
    mth "Add" [pq "name" (.lit "Render"),
      pq "handler" (.fn (.named "Renderer") .any)] .void,
    mth "Add" [pq "name" (.lit "WebsitesApproved"),
      pq "handler" (.fn (.array .str) .any)] .void],
  .intf "Renderer" [
    rfld "viewportSize" (.named "Vector2f"),
    rnfld "dtf",
    mth "EnableCulling" [pq "enabled" .boolean] .void,
    mth "SetTransform" [pq "matrix" (.named "Matrix")] .void,
    mth "DrawText" [pq "text" .str, pq "position" (.named "Vector3f"),
      pq "maxSize" (.named "Vector2f"), pq "color" (.named "RGBA"),
      pq "fontSize" .num, pq "fontName" .str] .void,
    mth "MeasureText" [pq "text" .str, pq "fontSize" .num, pq "fontName" .str]
      (.named "Vector2f"),
    mth "DrawRect" [pq "position" .any, pq "size" (.named "Vector2f"),
      pq "color" (.named "RGBA")] .void,
    mth "DrawLine" [pq "start" .any, pq "end" .any, pq "color" (.named "RGBA")] .void,
    mth "DrawTexture" [pq "texture" (.named "Texture"), pq "position" .any,
      pq "size" (.named "Vector2f")] .void,
    mth "WorldToScreen" [pq "p1" (.named "Vector3f")] (.named "Vector2f")],
  .intf "Checkpoint" [
    .indexStr .any, .indexNum .any,
    rnfld "modelHash",
    rnfld "type",
    fld "position" (.named "Vector3f"),
    fld "rotation" (.named "Vector3f"),
    nfld "radius",
    fld "visible" .boolean,
    mth "Destroy" [] .void],
  .cls "WebUIWindow" [
    .ctor [pq "name" .str, pq "location" .str, pq "size" (.named "Vector2")],
    fld "size" (.named "Vector2"),
    fld "location" .str,
    fld "hidden" .boolean,
    fld "position" (.named "Vector2"),
    fld "autoResize" .boolean,
    fld "captureMouseInput" .boolean,
    rfld "texture" (.named "Texture"),
    fld "autoRenderTexture" .boolean,
    mth "BringToFront" [] .void,
    mth "Reload" [pq "ignoreCache" .boolean] .void,
    mth "CallEvent" [pq "name" .str, prest "args" (.array .any)] .undef,
    mth "AddEvent" [pq "name" .str, pq "handler" anyHandler] .undef,
    mth "Destroy" [] .void],
  .cls "Texture" [
    .ctor [pq "file" .str],
    fld "baseColor" (.named "RGBA"),
    fld "size" (.named "Vector2f")],
  .intf "JCMPNamespace" [
    rfld "approvedWebsites" (.array .any),
    rfld "ui" (.named "JCMPUINamespace"),
    rfld "viewportSize" (.named "Vector2f"),
    rfld "localPlayer" (.named "LocalPlayer"),
    rfld "world" (.named "World"),
    rfld "settings" (.named "Settings"),
    mth "print" [pq "message" .str] .void,
    mth "printLog" [pq "filename" .str, pq "message" .str] .void],
  .intf "JCMPUINamespace" [
    .indexStr .any, .indexNum .any,
    mth "AddEvent" [pq "p1" .str, pq "p2" anyHandler] .void,
    mth "CallEvent" [pq "p1" .str, pq "p2" (.array .any)] .void,
    mth "ShowHud" [] .void,
    mth "HideHud" [] .void,
    mth "IsHudVisible" [] .boolean],
  .intf "LocalPlayer" [
    fld "position" (.named "Vector3f"),
    fld "rotation" (.named "Vector3f"),
    rfld "lookAt" (.named "Vector3f"),
    rfld "camera" (.named "Camera"),
    fld "frozen" .boolean,
    fld "controlsEnabled" .boolean,
    nfld "baseState",
    rnfld "networkId",
    rnfld "dimension",
    rnfld "playerStateBits1",
    rnfld "playerStateBits2",
    rfld "wingsuit" (.named "Wingsuit"),
    rfld "healthEffects" (.named "HealthEffect"),
    mth "SetAbilityEnabled" [pq "ability" .num, pq "enabled" .boolean] .void,
    mth "IsAbilityEnabled" [pq "ability" .num] .boolean,
    mth "GetRenderPosition" [pq "dtf" .num] (.named "Vector3f"),
    mth "GetRenderTransform" [pq "dtf" .num] (.named "Matrix"),
    mth "GetBoneTransform" [pq "boneid" .num, pq "dtf" .num] (.named "Matrix")],
  .intf "NetworkPlayer" [
    rnfld "networkId",
    rfld "name" .str,
    rnfld "health",
    rnfld "maxHealth",
    rfld "localPlayer" .boolean,
    rfld "position" (.named "Vector3f"),
    rfld "rotation" (.named "Vector3f"),
    rnfld "playerStateBits1",
    rnfld "playerStateBits2",
    mth "GetBoneTransform" [pq "p1" .num, pq "p2" .num] (.named "Matrix"),
    mth "GetRenderTransform" [pq "p1" .num] (.named "Matrix")],
  .intf "TimeOfDay" [
    rnfld "hour", rnfld "minute", rnfld "second"],
  .intf "World" [
    nfld "weather",
    fld "weatherVisible" .boolean,
    fld "moonColor" (.named "RGBA"),
    fld "sunPosition" (.named "Vector2f"),
    nfld "sunHDRScale",
    fld "sunColor" (.named "RGBA"),
    rfld "time" (.named "TimeOfDay"),
    mth "SetTime" [pq "hour" .num, pq "minute" .num, pq "p3" .num] .void,
    mth "ResetSunPosition" [] .void],
  .intf "Camera" [
    fld "position" (.named "Vector3f"),
    fld "rotation" (.named "Vector3f"),
    nfld "fieldOfView",
    fld "attachedToPlayer" .boolean],
  .intf "Settings" [
    mth "Set" [pq "p1" .str, pq "p2" .any] .void,
    mth "Get" [pq "p1" .str] .any,
    mth "Exists" [pq "p1" .str] .boolean,
    mth "Delete" [pq "p1" .str] .boolean,
    mth "Destroy" [] .void],
  .intf "Wingsuit" [
    fld "boostEnabled" .boolean,
    nfld "boostCooldown",
    nfld "boostDuration",
    nfld "boostPower",
    mth "Destroy" [] .void],
  .intf "HealthEffect" [
    nfld "regenRate",
    nfld "regenCooldown",
    mth "Destroy" [] .void],
  .intf "POI" [
    .indexStr .any, .indexNum .any,
    nfld "type",
    nfld "progress",
    nfld "progressMax",
    fld "position" (.named "Vector3f"),
    nfld "minDistance",
    nfld "maxDistance",
    fld "text" .str,
    fld "visible" .boolean,
    fld "flashing" .boolean,
    fld "clampedToScreen" .boolean,
    mth "Destroy" [] .void],
  .intf "NetworkVehicle" [
    rnfld "networkId",
    rnfld "health",
    rnfld "maxHealth",
    rfld "aabb" (.array .any),
    rfld "position" (.named "Vector3f"),
    rfld "rotation" (.named "Vector3f"),
    rfld "angularVelocity" (.named "Vector3f"),
    rfld "linearVelocity" (.named "Vector3f"),
    rfld "aimPosition" (.named "Vector3f"),
    rnfld "engineRPM",
    rnfld "type",
    rnfld "modelHash",
    rfld "gear" .any,
    rfld "nitroEnabled" .boolean,
    rfld "turboJumpEnabled" .boolean,
    rnfld "speedKph",
    mth "GetRenderTransform" [pq "p1" .num] (.named "Matrix")]]

/-- All declarations of every revision of every file in the repository. -/
def allRepoDecls : List TSDecl :=
  sharedDecls ++ serverRev1Decls ++ serverRev2Decls ++ clientRev1Decls ++ clientRev2Decls

/-! ## Queries over the embedded declarations -/

/-- The named types referenced by a type expression. -/
def TSType.refs : TSType → List String
  | .named n => [n]
  | .lit _ => []
  | .num => []
  | .str => []
  | .boolean => []
  | .any => []
  | .void => []
  | .undef => []
  | .array t => t.refs
  | .union a b => a.refs ++ b.refs
  | .fn d c => d.refs ++ c.refs
  | .fn0 c => c.refs
  | .fnRest d c => d.refs ++ c.refs

/-- The named types referenced by a member. -/
def TSMember.refs : TSMember → List String
  | .field _ t _ => t.refs
  | .method s => (s.mparams.flatMap fun p => p.ptype.refs) ++ s.mret.refs
  | .methodImpl s _ => (s.mparams.flatMap fun p => p.ptype.refs) ++ s.mret.refs
  | .ctor ps => ps.flatMap fun p => p.ptype.refs
  | .indexStr t => t.refs
  | .indexNum t => t.refs

/-- The named types referenced by a declaration. -/
def TSDecl.refs : TSDecl → List String
  | .intf _ ms => ms.flatMap TSMember.refs
  | .cls _ ms => ms.flatMap TSMember.refs
  | .constD _ t => t.refs

/-- Names declared by a list of declarations. -/
def declaredNames (ds : List TSDecl) : List String := ds.map TSDecl.name

/-- All named-type references of a list of declarations. -/
def referencedNames (ds : List TSDecl) : List String := ds.flatMap TSDecl.refs

/-- Named types provided by the TypeScript standard library (the repository
references the lib.es5 wrapper interface `Number` in two handler types). -/
def tsLibBuiltins : List String := ["Number"]

/-- References of a revision that its own declarations do not satisfy
(standard-library names excluded). -/
def undeclaredRefs (ds : List TSDecl) : List String :=
  ((referencedNames ds).filter fun n =>
    !(declaredNames ds).contains n && !tsLibBuiltins.contains n).dedup

/-- Does some declaration named `cls` declare a method named `mname`? -/
def hasMethodNamed (ds : List TSDecl) (cls mname : String) : Bool :=
  ds.any fun d => d.name == cls && d.members.any fun m =>
    match m with
    | .method s => s.mname == mname
    | .methodImpl s _ => s.mname == mname
    | _ => false

/-- The first declared method `cls.mname`, if any. -/
def findMethod (ds : List TSDecl) (cls mname : String) : Option TSMethod :=
  (ds.filterMap fun d =>
    if d.name == cls then
      d.members.findSome? fun m =>
        match m with
        | .method s => if s.mname == mname then some s else none
        | .methodImpl s _ => if s.mname == mname then some s else none
        | _ => none
    else none).head?

/-- The first declared field type `cls.fname`, if any. -/
def findFieldType (ds : List TSDecl) (cls fname : String) : Option TSType :=
  (ds.filterMap fun d =>
    if d.name == cls then
      d.members.findSome? fun m =>
        match m with
        | .field n t _ => if n == fname then some t else none
        | _ => none
    else none).head?

/-- The first declared constructor of class `cls`, if any. -/
def findCtor (ds : List TSDecl) (cls : String) : Option (List TSParam) :=
  (ds.filterMap fun d =>
    if d.name == cls then
      d.members.findSome? fun m =>
        match m with
        | .ctor ps => some ps
        | _ => none
    else none).head?

/-- Names declared as global values (`declare const`). -/
def globalValueNames (ds : List TSDecl) : List String :=
  ds.filterMap fun d =>
    match d with
    | .constD n _ => some n
    | _ => none

/-- Does a parameter list accept a call with `n` positional arguments?
Required parameters must all be supplied; extra arguments are allowed only
through a rest parameter. -/
def paramsAcceptArity (ps : List TSParam) (n : Nat) : Bool :=
  let required := (ps.filter fun p => !p.optional && !p.rest).length
  let hasRest := ps.any fun p => p.rest
  required ≤ n && (n ≤ ps.length || hasRest)

/-- A method call appearing in a documentation example: the receiver's
declared type, the method name and the number of arguments passed. -/
structure DocCall where
  receiver : String
  callee : String
  argCount : Nat
deriving DecidableEq, Repr

/-- Is a documented method call consistent with some declared signature? -/
def methodCallOk (ds : List TSDecl) (c : DocCall) : Bool :=
  ds.any fun d => d.name == c.receiver && d.members.any fun m =>
    match m with
    | .method s => s.mname == c.callee && paramsAcceptArity s.mparams c.argCount
    | .methodImpl s _ => s.mname == c.callee && paramsAcceptArity s.mparams c.argCount
    | _ => false

/-- Is a documented `new C(...)` call consistent with some declared
constructor? -/
def ctorCallOk (ds : List TSDecl) (cls : String) (n : Nat) : Bool :=
  ds.any fun d => d.name == cls && d.members.any fun m =>
    match m with
    | .ctor ps => paramsAcceptArity ps n
    | _ => false

/-- The event names for which a named `EventSystem.Add` overload is declared:
the string literals appearing as the type of the first parameter of an `Add`
overload. -/
def eventNames (ds : List TSDecl) : List String :=
  ds.flatMap fun d =>
    if d.name == "EventSystem" then
      d.members.filterMap fun m =>
        match m with
        | .method ⟨"Add", ⟨_, .lit s, _, _⟩ :: _, _⟩ => some s
        | _ => none
    else []

/-- Return types of the named-event `Add` overloads (first parameter typed by
a string literal) of every `EventSystem` declaration in `ds`. -/
def literalAddReturnTypes (ds : List TSDecl) : List TSType :=
  ds.flatMap fun d =>
    if d.name == "EventSystem" then
      d.members.filterMap fun m =>
        match m with
        | .method ⟨"Add", ⟨_, .lit _, _, _⟩ :: _, r⟩ => some r
        | _ => none
    else []

/-- Return types of the general `Add(name: string, ...)` overloads of every
`EventSystem` declaration in `ds`. -/
def generalAddReturnTypes (ds : List TSDecl) : List TSType :=
  ds.flatMap fun d =>
    if d.name == "EventSystem" then
      d.members.filterMap fun m =>
        match m with
        | .method ⟨"Add", ⟨_, .str, _, _⟩ :: _, r⟩ => some r
        | _ => none
    else []

/-- Does a declared type admit the value `undefined`?  `any` is unconstrained
and admits it; a union admits it when either side does. -/
def admitsUndefined : TSType → Bool
  | .any => true
  | .undef => true
  | .union a b => admitsUndefined a || admitsUndefined b
  | _ => false

/-- Runtime values, as far as the claims need them. -/
inductive JSVal where
  | num (n : ℤ)
  | str (s : String)
  | bool (b : Bool)
  | undef
deriving DecidableEq, Repr

/-- Does a declared type accept a runtime value?  Only the primitive,
literal, union and `any`/`undefined` cases matter for the claims; values of
object types are not modelled. -/
def acceptsVal : TSType → JSVal → Bool
  | .num, .num _ => true
  | .str, .str _ => true
  | .boolean, .bool _ => true
  | .undef, .undef => true
  | .any, _ => true
  | .lit s, .str t => s == t
  | .union a b, v => acceptsVal a v || acceptsVal b v
  | _, _ => false

/-- A member is ambient when it carries no body. -/
def TSMember.isAmbient : TSMember → Bool
  | .methodImpl _ _ => false
  | _ => true

/-- A declaration is ambient when every member is. -/
def TSDecl.isAmbient (d : TSDecl) : Bool := d.members.all TSMember.isAmbient

/-! ## Documentation examples of the first server revision

The two examples the claims single out appear as doc comments in
src/lib/jcmp.server.d.ts (first revision).  We transcribe the calls they
make on repository-declared types, the constructors they invoke and the
event names they register. -/

/-- The declarations visible to the first server revision: its own file plus
the shared file. -/
def serverRev1Context : List TSDecl := serverRev1Decls ++ sharedDecls

/-- Method calls in the example of `POI.IsVisibleForPlayer` (server lines
666-674): the example evaluates `myPOI.SetVisibleForPlayer(player)` with a
single argument. -/
def poiIsVisibleExampleCalls : List DocCall := [⟨"POI", "SetVisibleForPlayer", 1⟩]

/-- Constructor calls in the example of `POI.IsVisibleForPlayer`:
`new POI(0, new Vector3f(0.0,0.0,0.0), "Test POI")`. -/
def poiIsVisibleExampleCtors : List (String × Nat) := [("POI", 3), ("Vector3f", 3)]

/-- Event names registered in the example of `POI.IsVisibleForPlayer`. -/
def poiIsVisibleExampleEvents : List String := ["PlayerReady"]

/-- Method calls in the example of `Vehicle.GetOccupant` (server lines
556-561): the handler evaluates `vehicle.GetOccupant(0)`. -/
def getOccupantExampleCalls : List DocCall := [⟨"Vehicle", "GetOccupant", 1⟩]

/-- Event names registered in the example of `Vehicle.GetOccupant`: the
example subscribes to `PlayerExitVehicle`. -/
def getOccupantExampleEvents : List String := ["PlayerExitVehicle"]

/-! ## Helper predicates for the vector claims -/

/-- The four arithmetic helpers of a vector class `v`, each declared with one
parameter `vec: v` and return type `v`. -/
def vecOpsOk (v : String) : Bool :=
  ["add", "sub", "mul", "div"].all fun op =>
    findMethod sharedDecls v op == some ⟨op, [pq "vec" (.named v)], .named v⟩

/-- A vector class `v` declares none of the four arithmetic helpers. -/
def vecNoOps (v : String) : Bool :=
  ["add", "sub", "mul", "div"].all fun op => !hasMethodNamed sharedDecls v op

/-- A vector class `v` declares every coordinate in `cs` as a `number`
field. -/
def coordFieldsOk (v : String) (cs : List String) : Bool :=
  cs.all fun c => findFieldType sharedDecls v c == some .num

/-! ## Claim theorems -/

/-- C1, counterexample: the claim asserts that all six vector declarations
carry `add`, `sub`, `mul` and `div`, but the declared class `Vector3` of the
shared file has no method named `add` (nor `sub`, `mul`, `div`). -/
theorem C1_counterexample :
    (declaredNames sharedDecls).contains "Vector3" = true ∧
    hasMethodNamed sharedDecls "Vector3" "add" = false ∧
    hasMethodNamed sharedDecls "Vector3" "sub" = false ∧
    hasMethodNamed sharedDecls "Vector3" "mul" = false ∧
    hasMethodNamed sharedDecls "Vector3" "div" = false := by decide

/-- C1, amended: all six vector declarations declare their coordinate fields,
but only the floating-point variants `Vector2f`, `Vector3f`, `Vector4f`
declare the arithmetic helpers `add`, `sub`, `mul`, `div` (each taking one
vector of the same type and returning that type); `Vector2`, `Vector3` and
`Vector4` declare none of them. -/
theorem C1_vector_arithmetic :
    coordFieldsOk "Vector2" ["x", "y"] = true ∧
    coordFieldsOk "Vector3" ["x", "y", "z"] = true ∧
    coordFieldsOk "Vector4" ["x", "y", "z", "w"] = true ∧
    coordFieldsOk "Vector2f" ["x", "y"] = true ∧
    coordFieldsOk "Vector3f" ["x", "y", "z"] = true ∧
    coordFieldsOk "Vector4f" ["x", "y", "z", "w"] = true ∧
    vecOpsOk "Vector2f" = true ∧
    vecOpsOk "Vector3f" = true ∧
    vecOpsOk "Vector4f" = true ∧
    vecNoOps "Vector2" = true ∧
    vecNoOps "Vector3" = true ∧
    vecNoOps "Vector4" = true := by decide

/-- C2, counterexample: of the four names the claim lists, only `jcmp` is
declared as a global value; `events`, `localPlayer` and `viewportSize` are
not declared as global values anywhere in the repository. -/
theorem C2_counterexample :
    (globalValueNames allRepoDecls).contains "events" = false ∧
    (globalValueNames allRepoDecls).contains "localPlayer" = false ∧
    (globalValueNames allRepoDecls).contains "viewportSize" = false ∧
    (globalValueNames allRepoDecls).contains "jcmp" = true := by decide

/-- C2, amended: the declared API surface contains exactly one global value,
`jcmp` (of type `JCMPNamespace`); `events`, `localPlayer` and `viewportSize`
are declared only as properties of the `JCMPNamespace` interface (`events` in
the shared file, `localPlayer` and `viewportSize` in the client files). -/
theorem C2_globals :
    globalValueNames allRepoDecls = ["jcmp"] ∧
    (sharedDecls.filterMap fun d =>
      match d with
      | .constD n t => some (n, t)
      | _ => none) = [("jcmp", .named "JCMPNamespace")] ∧
    findFieldType sharedDecls "JCMPNamespace" "events" = some (.named "EventSystem") ∧
    findFieldType clientRev1Decls "JCMPNamespace" "localPlayer" =
      some (.named "LocalPlayer") ∧
    findFieldType clientRev1Decls "JCMPNamespace" "viewportSize" =
      some (.named "Vector2f") ∧
    findFieldType clientRev2Decls "JCMPNamespace" "localPlayer" =
      some (.named "LocalPlayer") ∧
    findFieldType clientRev2Decls "JCMPNamespace" "viewportSize" =
      some (.named "Vector2f") := by decide

/-- C3, counterexample: the example attached to `POI.IsVisibleForPlayer` in
the first server revision calls `POI.SetVisibleForPlayer` with one argument,
although the declared method requires two; and the example attached to
`Vehicle.GetOccupant` registers the event name `PlayerExitVehicle`, for which
no `Add` overload is declared in that revision. -/
theorem C3_counterexample :
    ⟨"POI", "SetVisibleForPlayer", 1⟩ ∈ poiIsVisibleExampleCalls ∧
    methodCallOk serverRev1Context ⟨"POI", "SetVisibleForPlayer", 1⟩ = false ∧
    "PlayerExitVehicle" ∈ getOccupantExampleEvents ∧
    "PlayerExitVehicle" ∉ eventNames serverRev1Context := by decide

/-- C3, amended: the documentation examples of the first server revision are
not internally consistent: in the example of `POI.IsVisibleForPlayer` the
call `SetVisibleForPlayer(player)` passes one argument while the declared
signature requires two, and the example of `Vehicle.GetOccupant` registers
the undeclared event name `PlayerExitVehicle`; the remaining constructor
calls, method calls and event names of those two examples do match
declarations of the revision. -/
theorem C3_example_consistency :
    (poiIsVisibleExampleCtors.all fun c =>
      ctorCallOk serverRev1Context c.1 c.2) = true ∧
    (poiIsVisibleExampleEvents.all fun e =>
      (eventNames serverRev1Context).contains e) = true ∧
    (getOccupantExampleCalls.all fun c => methodCallOk serverRev1Context c) = true ∧
    methodCallOk serverRev1Context ⟨"POI", "SetVisibleForPlayer", 1⟩ = false ∧
    methodCallOk serverRev1Context ⟨"POI", "SetVisibleForPlayer", 2⟩ = true ∧
    (eventNames serverRev1Context).contains "PlayerExitVehicle" = false := by decide

/-- C4, counterexample: the claim asserts some revision declares `Vector3`
with the arithmetic methods; in fact exactly one declaration of `Vector3`
exists across all revisions and it declares none of `add`, `sub`, `mul`,
`div`. -/
theorem C4_counterexample :
    (allRepoDecls.filter fun d => d.name == "Vector3").length = 1 ∧
    hasMethodNamed allRepoDecls "Vector3" "add" = false ∧
    hasMethodNamed allRepoDecls "Vector3" "sub" = false ∧
    hasMethodNamed allRepoDecls "Vector3" "mul" = false ∧
    hasMethodNamed allRepoDecls "Vector3" "div" = false := by decide

/-- C4, amended: across all revisions of the declaration files there is
exactly one declaration of `Vector3` (in the shared file) and it has no
arithmetic methods; the methods `add`, `sub`, `mul`, `div` are declared on
the floating-point variant `Vector3f` instead. -/
theorem C4_vector3_revisions :
    (allRepoDecls.filter fun d => d.name == "Vector3").length = 1 ∧
    vecNoOps "Vector3" = true ∧
    (declaredNames sharedDecls).contains "Vector3" = true ∧
    vecOpsOk "Vector3f" = true := by decide

/-- C5: the declared signature of `GameObject.ApplyForce` differs between the
two server revisions: the force-direction parameter is typed `Vector3` in the
first revision and `Vector3f` in the second, so the two declarations are not
equal. -/
theorem C5_applyforce_differs :
    findMethod serverRev1Decls "GameObject" "ApplyForce" =
      some ⟨"ApplyForce", [pq "direction" (.named "Vector3"), pq "deltaTime" .num], .void⟩ ∧
    findMethod serverRev2Decls "GameObject" "ApplyForce" =
      some ⟨"ApplyForce", [pq "direction" (.named "Vector3f"), pq "deltaTime" .num], .void⟩ ∧
    findMethod serverRev1Decls "GameObject" "ApplyForce" ≠
      findMethod serverRev2Decls "GameObject" "ApplyForce" := by decide

/-- C6, counterexample: the claim asserts that in one server revision the
declared type of `Player.weapons` admits `undefined` while in the other it
does not; in fact both declared types admit `undefined` (`any` in the first
revision, the explicit union with `undefined` in the second). -/
theorem C6_counterexample :
    findFieldType serverRev1Decls "Player" "weapons" = some .any ∧
    findFieldType serverRev2Decls "Player" "weapons" =
      some (.union (.array (.named "PlayerWeapon")) .undef) ∧
    admitsUndefined ((findFieldType serverRev1Decls "Player" "weapons").getD .void) = true ∧
    admitsUndefined ((findFieldType serverRev2Decls "Player" "weapons").getD .void) = true := by
  decide

/-- C6, amended: the declared type of `Player.weapons` differs between the two
server revisions — the unconstrained `any` in the first, the explicit
`Array<PlayerWeapon> | undefined` in the second — so the two declarations are
not equal; but both declared types admit `undefined`, so the revisions differ
in unconstrained versus explicitly nullable typing, not in one of them
excluding `undefined`. -/
theorem C6_weapons_differs :
    findFieldType serverRev1Decls "Player" "weapons" = some .any ∧
    findFieldType serverRev2Decls "Player" "weapons" =
      some (.union (.array (.named "PlayerWeapon")) .undef) ∧
    findFieldType serverRev1Decls "Player" "weapons" ≠
      findFieldType serverRev2Decls "Player" "weapons" ∧
    admitsUndefined ((findFieldType serverRev1Decls "Player" "weapons").getD .void) = true ∧
    admitsUndefined ((findFieldType serverRev2Decls "Player" "weapons").getD .void) = true := by
  decide

/-- C7: every type name referenced but not declared within a server or client
revision (TypeScript standard-library names aside) is declared in the shared
file, and the shared file itself references only types it declares — so the
only cross-file dependency is server/client depending on shared. -/
theorem C7_shared_only_dependency :
    ((undeclaredRefs serverRev1Decls).all fun n =>
      (declaredNames sharedDecls).contains n) = true ∧
    ((undeclaredRefs serverRev2Decls).all fun n =>
      (declaredNames sharedDecls).contains n) = true ∧
    ((undeclaredRefs clientRev1Decls).all fun n =>
      (declaredNames sharedDecls).contains n) = true ∧
    ((undeclaredRefs clientRev2Decls).all fun n =>
      (declaredNames sharedDecls).contains n) = true ∧
    undeclaredRefs sharedDecls = [] := by decide

/-- C8: the `r`, `g`, `b` (and `a`) fields of `RGB` and `RGBA` and all their
constructor parameters are declared as unrestricted `number`, so the declared
interface accepts every number — negative values and values above 255
included — for every channel. -/
theorem C8_rgb_unconstrained :
    findFieldType sharedDecls "RGB" "r" = some .num ∧
    findFieldType sharedDecls "RGB" "g" = some .num ∧
    findFieldType sharedDecls "RGB" "b" = some .num ∧
    findFieldType sharedDecls "RGBA" "r" = some .num ∧
    findFieldType sharedDecls "RGBA" "g" = some .num ∧
    findFieldType sharedDecls "RGBA" "b" = some .num ∧
    findFieldType sharedDecls "RGBA" "a" = some .num ∧
    findCtor sharedDecls "RGB" = some [popt "r" .num, popt "g" .num, popt "b" .num] ∧
    findCtor sharedDecls "RGBA" =
      some [popt "r" .num, popt "g" .num, popt "b" .num, popt "a" .num] ∧
    (∀ n : ℤ,
      acceptsVal ((findFieldType sharedDecls "RGB" "r").getD .void) (.num n) = true) ∧
    (∀ n : ℤ,
      acceptsVal ((findFieldType sharedDecls "RGBA" "a").getD .void) (.num n) = true) :=
  ⟨by decide, by decide, by decide, by decide, by decide, by decide, by decide,
   by decide, by decide, fun _ => rfl, fun _ => rfl⟩

/-- C9: the repository contains no executable code: every member of every
declaration in every revision is an ambient signature without a body. -/
theorem C9_all_ambient : allRepoDecls.all TSDecl.isAmbient = true := by decide

/-- C10: the general `EventSystem.Add(name: string, handler)` overload — the
only one across all revisions — returns `EventInstance` (the type consumed by
`EventSystem.Remove`), while every named-event `Add` overload (first
parameter a string literal) in every revision returns `void`. -/
theorem C10_add_overload_returns :
    generalAddReturnTypes allRepoDecls = [.named "EventInstance"] ∧
    (literalAddReturnTypes allRepoDecls).all (fun t => t == .void) = true ∧
    literalAddReturnTypes allRepoDecls ≠ [] ∧
    findMethod sharedDecls "EventSystem" "Remove" =
      some ⟨"Remove", [pq "p1" (.named "EventInstance")], .void⟩ := by decide
